import Mathlib

/-!
# Verification of the NLP services repository

Shallow embedding of the request-orchestration and response-normalization
layer of the three backend services:

* `Sentiment-Analyzer-with-Mistral/backend/main.py`
* `product-review-analyzer/backend/main.py`
* `llama-text-summarizer/backend/main.py`

Text is modelled as `List Char`.  Network effects are modelled by passing an
explicit outcome value for each HTTP call the code makes; a Python function
that raises is modelled as a function into `Except`.
-/

namespace NLP

/-- Whitespace characters removed by Python's `str.strip()` (ASCII subset:
space, tab, newline, carriage return, vertical tab, form feed). -/
def isWS (c : Char) : Bool :=
  c == ' ' || c == '\t' || c == '\n' || c == '\r' || c == '\x0B' || c == '\x0C'

/-- Model of Python `str.strip()`: remove leading and trailing whitespace. -/
def pyStrip (l : List Char) : List Char :=
  ((l.dropWhile isWS).reverse.dropWhile isWS).reverse

/-- ASCII lower-casing of one character, modelling Python `str.lower()` on
the ASCII range (the only range the matched keywords live in). -/
def lowerChar (c : Char) : Char :=
  if 65 ≤ c.toNat ∧ c.toNat ≤ 90 then Char.ofNat (c.toNat + 32) else c

/-- Model of Python `str.lower()`. -/
def lowerStr (l : List Char) : List Char :=
  l.map lowerChar

/-- `isPrefOf s l` is true when `s` is a leading segment of `l`. -/
def isPrefOf : List Char → List Char → Bool
  | [], _ => true
  | _ :: _, [] => false
  | c :: s, d :: l => c == d && isPrefOf s l

/-- `containsSub sub l` models Python's `sub in l` substring test. -/
def containsSub (sub : List Char) : List Char → Bool
  | [] => isPrefOf sub []
  | c :: t => isPrefOf sub (c :: t) || containsSub sub t

/-- Response normalizer of `Sentiment-Analyzer-with-Mistral/backend/main.py`,
`analyze_text` lines 96-106: strip the raw reply, lower-case it, and map it
onto the first matching label of `[Positive, Negative, Neutral]`; when no
keyword occurs, the stripped raw reply is passed through unchanged. -/
def normalize (raw : List Char) : List Char :=
  let sentiment := pyStrip raw
  let sl := lowerStr sentiment
  if containsSub "positive".data sl then "Positive".data
  else if containsSub "negative".data sl then "Negative".data
  else if containsSub "neutral".data sl then "Neutral".data
  else sentiment

/-! ## Substring lemmas -/

theorem isPrefOf_iff (s l : List Char) : isPrefOf s l = true ↔ ∃ r, l = s ++ r := by
  induction s generalizing l with
  | nil => simp [isPrefOf]
  | cons c s ih =>
    cases l with
    | nil => simp [isPrefOf]
    | cons d t =>
      simp only [isPrefOf, Bool.and_eq_true, beq_iff_eq, ih]
      constructor
      · rintro ⟨rfl, r, rfl⟩
        exact ⟨r, rfl⟩
      · rintro ⟨r, hr⟩
        cases hr
        exact ⟨rfl, r, rfl⟩

theorem containsSub_iff (sub l : List Char) :
    containsSub sub l = true ↔ ∃ a b, l = a ++ sub ++ b := by
  induction l with
  | nil =>
    simp only [containsSub, isPrefOf_iff]
    constructor
    · rintro ⟨r, hr⟩
      exact ⟨[], r, by simpa using hr⟩
    · rintro ⟨a, b, hab⟩
      have h1 := List.append_eq_nil.mp hab.symm
      have h2 := List.append_eq_nil.mp h1.1
      exact ⟨b, by simp [h2.2, h1.2]⟩
  | cons c t ih =>
    simp only [containsSub, Bool.or_eq_true, isPrefOf_iff, ih]
    constructor
    · rintro (⟨r, hr⟩ | ⟨a, b, hab⟩)
      · exact ⟨[], r, by simpa using hr⟩
      · exact ⟨c :: a, b, by simp [hab]⟩
    · rintro ⟨a, b, hab⟩
      cases a with
      | nil => exact Or.inl ⟨b, by simpa using hab⟩
      | cons x a' =>
        right
        refine ⟨a', b, ?_⟩
        simp only [List.cons_append, List.cons.injEq] at hab
        exact hab.2

theorem isWS_lowerChar (c : Char) : isWS (lowerChar c) = isWS c := by
  unfold lowerChar
  split
  · rename_i h
    have hup : isWS c = false := by
      cases hws : isWS c
      · rfl
      · exfalso
        simp only [isWS, Bool.or_eq_true, beq_iff_eq] at hws
        rcases hws with ((((rfl | rfl) | rfl) | rfl) | rfl) | rfl <;>
          exact absurd h.1 (by decide)
    rw [hup]
    obtain ⟨m, hm1, hm2, hm3⟩ : ∃ m, 65 ≤ m ∧ m ≤ 90 ∧ c.toNat = m := ⟨c.toNat, h.1, h.2, rfl⟩
    rw [hm3]
    interval_cases m <;> decide
  · rfl

theorem dropWhile_lowerStr (l : List Char) :
    (lowerStr l).dropWhile isWS = lowerStr (l.dropWhile isWS) := by
  induction l with
  | nil => rfl
  | cons c t ih =>
    simp only [lowerStr, List.map_cons, List.dropWhile_cons, isWS_lowerChar]
    by_cases h : isWS c
    · simpa [h, lowerStr] using ih
    · simp [h, lowerStr]

theorem reverse_lowerStr (l : List Char) :
    (lowerStr l).reverse = lowerStr l.reverse :=
  (List.map_reverse lowerChar l).symm

theorem pyStrip_lowerStr (l : List Char) :
    pyStrip (lowerStr l) = lowerStr (pyStrip l) := by
  unfold pyStrip
  rw [dropWhile_lowerStr, reverse_lowerStr, dropWhile_lowerStr, reverse_lowerStr]

/-- A substring occurrence survives `dropWhile isWS` when the substring
starts with a non-whitespace character. -/
theorem containsSub_dropWhile (sub l : List Char) (c : Char) (hc : sub.head? = some c)
    (hcw : isWS c = false) (h : containsSub sub l = true) :
    containsSub sub (l.dropWhile isWS) = true := by
  induction l with
  | nil => simpa using h
  | cons x t ih =>
    rw [List.dropWhile_cons]
    by_cases hx : isWS x
    · rw [if_pos hx]
      apply ih
      rw [containsSub_iff] at h ⊢
      obtain ⟨a, b, hab⟩ := h
      cases a with
      | nil =>
        exfalso
        cases sub with
        | nil => simp at hc
        | cons s0 s' =>
          simp only [List.nil_append, List.cons_append, List.cons.injEq] at hab
          have hs0 : s0 = c := by simpa using hc
          rw [hab.1, hs0] at hx
          rw [hcw] at hx
          exact Bool.noConfusion hx
      | cons y a' =>
        simp only [List.cons_append, List.cons.injEq] at hab
        exact ⟨a', b, hab.2⟩
    · rw [if_neg hx]
      exact h

theorem containsSub_reverse (sub l : List Char) :
    containsSub sub.reverse l.reverse = containsSub sub l := by
  have key : ∀ s m : List Char, containsSub s m = true → containsSub s.reverse m.reverse = true := by
    intro s m hm
    rw [containsSub_iff] at hm ⊢
    obtain ⟨a, b, rfl⟩ := hm
    exact ⟨b.reverse, a.reverse, by simp⟩
  cases hb : containsSub sub l
  · cases hb' : containsSub sub.reverse l.reverse
    · rfl
    · have hfwd := key _ _ hb'
      simp only [List.reverse_reverse] at hfwd
      rw [hfwd] at hb
      exact Bool.noConfusion hb
  · exact key _ _ hb

/-- The stripped text sits inside the original text. -/
theorem pyStrip_decomp (l : List Char) : ∃ p q, l = p ++ pyStrip l ++ q := by
  obtain ⟨p, hp⟩ := List.dropWhile_suffix (l := l) (p := isWS)
  obtain ⟨q, hq⟩ := List.dropWhile_suffix (l := (l.dropWhile isWS).reverse) (p := isWS)
  refine ⟨p, q.reverse, ?_⟩
  show l = p ++ ((l.dropWhile isWS).reverse.dropWhile isWS).reverse ++ q.reverse
  have h2 : l.dropWhile isWS =
      ((l.dropWhile isWS).reverse.dropWhile isWS).reverse ++ q.reverse := by
    calc l.dropWhile isWS = (l.dropWhile isWS).reverse.reverse := by simp
    _ = (q ++ (l.dropWhile isWS).reverse.dropWhile isWS).reverse := by rw [hq]
    _ = _ := by simp
  calc l = p ++ l.dropWhile isWS := hp.symm
  _ = p ++ (((l.dropWhile isWS).reverse.dropWhile isWS).reverse ++ q.reverse) :=
      congrArg _ h2
  _ = p ++ ((l.dropWhile isWS).reverse.dropWhile isWS).reverse ++ q.reverse :=
      (List.append_assoc ..).symm

/-- Substring containment of an all-non-whitespace, non-empty keyword is
unchanged by stripping the searched text. -/
theorem containsSub_pyStrip (sub l : List Char) (hne : sub ≠ [])
    (hall : ∀ c ∈ sub, isWS c = false) :
    containsSub sub (pyStrip l) = containsSub sub l := by
  obtain ⟨c, s', rfl⟩ := List.exists_cons_of_ne_nil hne
  have hhead : (c :: s').head? = some c := rfl
  have easy : containsSub (c :: s') (pyStrip l) = true →
      containsSub (c :: s') l = true := by
    intro ht'
    rw [containsSub_iff] at ht' ⊢
    obtain ⟨a, b, hab⟩ := ht'
    obtain ⟨p, q, hl⟩ := pyStrip_decomp l
    exact ⟨p ++ a, b ++ q, by rw [hl, hab]; simp [List.append_assoc]⟩
  have hard : containsSub (c :: s') l = true →
      containsSub (c :: s') (pyStrip l) = true := by
    intro ht
    obtain ⟨d, r, hrev⟩ : ∃ d r, (c :: s').reverse = d :: r :=
      List.exists_cons_of_ne_nil (by simp)
    have hdmem : d ∈ c :: s' := by
      have hd : d ∈ (c :: s').reverse := by
        rw [hrev]
        exact List.mem_cons_self _ _
      exact List.mem_reverse.mp hd
    have hlast : (c :: s').reverse.head? = some d := by rw [hrev]; rfl
    have step1 : containsSub (c :: s') (l.dropWhile isWS) = true :=
      containsSub_dropWhile _ _ c hhead (hall c (by simp)) ht
    have step2 : containsSub (c :: s').reverse (l.dropWhile isWS).reverse = true := by
      rw [containsSub_reverse]
      exact step1
    have step3 : containsSub (c :: s').reverse
        ((l.dropWhile isWS).reverse.dropWhile isWS) = true :=
      containsSub_dropWhile _ _ d hlast (hall d hdmem) step2
    have hrevstrip : (pyStrip l).reverse = (l.dropWhile isWS).reverse.dropWhile isWS := by
      show (((l.dropWhile isWS).reverse.dropWhile isWS).reverse).reverse = _
      simp
    rw [← containsSub_reverse (c :: s') (pyStrip l), hrevstrip]
    exact step3
  cases hb : containsSub (c :: s') l
  · cases hb' : containsSub (c :: s') (pyStrip l)
    · rfl
    · have := easy hb'
      rw [this] at hb
      exact Bool.noConfusion hb
  · exact hard hb

/-- The two keyword tests agree: the test the code performs (on the
lower-cased, stripped reply) matches the test on the lower-cased raw reply. -/
theorem containsSub_lower_pyStrip (sub l : List Char) (hne : sub ≠ [])
    (hall : ∀ c ∈ sub, isWS c = false) :
    containsSub sub (lowerStr (pyStrip l)) = containsSub sub (lowerStr l) := by
  rw [← pyStrip_lowerStr]
  exact containsSub_pyStrip sub (lowerStr l) hne hall

/-! ## Sentiment analyzer (`Sentiment-Analyzer-with-Mistral/backend/main.py`) -/

/-- Outcome of the single `requests.post` call made by `analyze_text`.
`success` carries the optional `response` field of the parsed JSON body
(`result.get("response", "")`); the remaining constructors are the
exceptions the code catches: `requests.exceptions.ConnectionError`,
`requests.exceptions.Timeout`, and any other exception (e.g. the
`HTTPError` from `raise_for_status` on a non-success status, or a JSON
decoding error), carrying its `str(e)` text. -/
inductive SentOutcome where
  | success (responseField : Option (List Char))
  | connectionError
  | timeout
  | otherError (msg : List Char)
deriving DecidableEq

/-- The dict returned by `analyze_text`. -/
structure SentResult where
  text : List Char
  sentiment : List Char
  success : Bool
deriving DecidableEq

/-- `analyze_text` (lines 68-114): one inference call, normalization of the
reply, and translation of every exception into a `success=False` dict. -/
def analyzeText (text : List Char) (o : SentOutcome) : SentResult :=
  match o with
  | .success rf => { text := text, sentiment := normalize (rf.getD []), success := true }
  | .connectionError =>
      { text := text, sentiment := "Error: Cannot connect to Ollama".data, success := false }
  | .timeout =>
      { text := text, sentiment := "Error: Request timed out".data, success := false }
  | .otherError msg =>
      { text := text, sentiment := "Error: ".data ++ msg, success := false }

/-- The dict returned by `analyze_batch` (endpoint `/analyze/batch`). -/
structure SentBatchResponse where
  results : List SentResult
  total : Nat
  success_count : Nat
deriving DecidableEq

/-- The `for text in request.texts` loop of `analyze_batch` (lines 153-160),
threading the `results` list and the `success_count` counter.  Each element
of the input pairs one text of `request.texts` with the outcome of the
inference call made for it. -/
def sentBatchLoop : List (List Char × SentOutcome) → List SentResult → Nat →
    List SentResult × Nat
  | [], results, sc => (results, sc)
  | (t, o) :: rest, results, sc =>
      let r := analyzeText t o
      sentBatchLoop rest (results ++ [r]) (if r.success then sc + 1 else sc)

/-- `analyze_batch` (lines 150-166). -/
def analyzeBatchSA (items : List (List Char × SentOutcome)) : SentBatchResponse :=
  let out := sentBatchLoop items [] 0
  { results := out.1, total := items.length, success_count := out.2 }

/-! ## Product review analyzer (`product-review-analyzer/backend/main.py`) -/

/-- A FastAPI `HTTPException`, as raised by `query_ollama`. -/
structure HTTPExc where
  status_code : Nat
  detail : List Char
deriving DecidableEq

/-- Outcome of one `httpx` POST to Ollama inside `query_ollama`.
`success` carries the optional `response` field of the parsed JSON body;
`timeout` is `httpx.TimeoutException`; `connectError` is
`httpx.ConnectError`; `requestError` is any other `httpx.RequestError`;
`httpStatusError` is the `httpx.HTTPStatusError` thrown by
`raise_for_status` on a non-success status; `malformedBody` is a JSON
decoding failure.  The last two are not `RequestError`s, so they fall
through to the generic `except Exception` arm. -/
inductive OllamaOutcome where
  | success (responseField : Option (List Char))
  | timeout
  | connectError
  | requestError
  | httpStatusError (code : Nat)
  | malformedBody
deriving DecidableEq

/-- Rendering of `str(e)` for a FastAPI `HTTPException` (status code and
detail text). -/
def excStr (e : HTTPExc) : List Char :=
  (Nat.repr e.status_code).data ++ ": ".data ++ e.detail

/-- `query_ollama` (lines 135-171).  A raised `HTTPException` is modelled
as `.error`; note that the generic `except Exception` arm RETURNS the
literal string `"Error"` instead of raising. -/
def queryOllama : OllamaOutcome → Except HTTPExc (List Char)
  | .success rf => .ok (pyStrip (rf.getD []))
  | .timeout => .error ⟨504, "Request timed out. The model is taking too long to respond.".data⟩
  | .connectError =>
      .error ⟨503, "Could not connect to Ollama. Make sure it's running on localhost:11434".data⟩
  | .requestError => .error ⟨503, "Service Unavailable: Could not connect to Ollama.".data⟩
  | .httpStatusError _ => .ok "Error".data
  | .malformedBody => .ok "Error".data

/-- One review of a batch request (`ReviewItem`). -/
structure RevItem where
  text : List Char
  product_name : List Char
deriving DecidableEq

/-- The three inference-call outcomes of one item's fan-out
(sentiment, topic and summary prompt, in the order they are passed to
`asyncio.gather`). -/
structure ItemOutcomes where
  sent : OllamaOutcome
  top : OllamaOutcome
  sum : OllamaOutcome
deriving DecidableEq

/-- `BatchResultItem` of the response model. -/
structure BatchResultItem where
  review : List Char
  product_name : List Char
  sentiment : List Char
  topic : List Char
  summary : List Char
  error : Option (List Char)
deriving DecidableEq

/-- `BatchAnalysisResponse` of the response model. -/
structure BatchAnalysisResponse where
  results : List BatchResultItem
  total_count : Nat
  success_count : Nat
  error_count : Nat
deriving DecidableEq

/-- `asyncio.gather` over the three `query_ollama` coroutines: all three
results when none raises, otherwise the first raised exception (gather
without `return_exceptions` propagates one raised exception; which one is
timing-dependent, determinized here as the first failing call in argument
order). -/
def gather3 (a b c : Except HTTPExc (List Char)) :
    Except HTTPExc (List Char × List Char × List Char) :=
  match a with
  | .error e => .error e
  | .ok x =>
    match b with
    | .error e => .error e
    | .ok y =>
      match c with
      | .error e => .error e
      | .ok z => .ok (x, y, z)

/-- The body of one iteration of the `for idx, item in enumerate(...)` loop
of `analyze_batch` (lines 277-317): strip the text, default the product
name, fan out the three prompts, and translate a raised exception into an
`"Error"`-filled row with the `error` field set.  The second component
reports whether the iteration incremented `success_count` (`true`) or
`error_count` (`false`). -/
def processItem (it : RevItem) (oc : ItemOutcomes) : BatchResultItem × Bool :=
  let text := pyStrip it.text
  let product := if it.product_name = [] then "Product".data else it.product_name
  match gather3 (queryOllama oc.sent) (queryOllama oc.top) (queryOllama oc.sum) with
  | .ok (s, t, u) =>
      ({ review := text, product_name := product, sentiment := s, topic := t,
         summary := u, error := none }, true)
  | .error e =>
      ({ review := text, product_name := product, sentiment := "Error".data,
         topic := "Error".data, summary := "Error".data,
         error := some (excStr e) }, false)

/-- The whole loop of `analyze_batch`, threading `results`,
`success_count` and `error_count`. -/
def prBatchLoop : List (RevItem × ItemOutcomes) → List BatchResultItem → Nat → Nat →
    List BatchResultItem × Nat × Nat
  | [], results, sc, ec => (results, sc, ec)
  | (it, oc) :: rest, results, sc, ec =>
      let r := processItem it oc
      if r.2 then prBatchLoop rest (results ++ [r.1]) (sc + 1) ec
      else prBatchLoop rest (results ++ [r.1]) sc (ec + 1)

/-- `analyze_batch` (lines 258-326). -/
def analyzeBatchPR (items : List (RevItem × ItemOutcomes)) : BatchAnalysisResponse :=
  let out := prBatchLoop items [] 0 0
  { results := out.1, total_count := items.length,
    success_count := out.2.1, error_count := out.2.2 }

/-- Pydantic validation of one `ReviewItem` (lines 63-66):
`text` has `min_length=3, max_length=5000`, `product_name` has
`max_length=100`. -/
def validReviewItem (it : RevItem) : Bool :=
  3 ≤ it.text.length && it.text.length ≤ 5000 && it.product_name.length ≤ 100

/-- Pydantic validation of a `BatchReviewRequest` (lines 68-75):
`reviews` has `min_length=1, max_length=100`, and each item is validated
itself.  FastAPI runs this before the endpoint body, hence before any
network call. -/
def validBatchRequest (reviews : List RevItem) : Bool :=
  1 ≤ reviews.length && reviews.length ≤ 100 && reviews.all validReviewItem

/-- A request-validation failure produced by FastAPI/pydantic before the
handler runs. -/
structure ValidationFailure where
  status_code : Nat
deriving DecidableEq

/-- The `/analyze_batch/` endpoint as seen from a client: pydantic
validation first (a 422 validation failure and no network call when the
request violates the length bounds), then the `analyze_batch` handler.
The second component counts the Ollama calls issued. -/
def analyzeBatchEndpointPR (items : List (RevItem × ItemOutcomes)) :
    Except ValidationFailure BatchAnalysisResponse × Nat :=
  if validBatchRequest (items.map Prod.fst) then
    (.ok (analyzeBatchPR items), 3 * items.length)
  else (.error ⟨422⟩, 0)

/-! ## Text summarizer (`llama-text-summarizer/backend/main.py`) -/

/-- Default `MIN_TEXT_LENGTH` (environment default 10). -/
def MIN_TEXT_LENGTH : Nat := 10

/-- Default `MAX_TEXT_LENGTH` (environment default 10000). -/
def MAX_TEXT_LENGTH : Nat := 10000

/-- `validate_text` (lines 108-119): raises a 400 `HTTPException` when the
stripped text is shorter than `MIN_TEXT_LENGTH` or the raw text is longer
than `MAX_TEXT_LENGTH`. -/
def validateText (text : List Char) : Except HTTPExc Unit :=
  if (pyStrip text).length < MIN_TEXT_LENGTH then
    .error ⟨400, "Text is too short. Minimum 10 characters required.".data⟩
  else if text.length > MAX_TEXT_LENGTH then
    .error ⟨400, "Text is too long. Maximum 10000 characters allowed.".data⟩
  else .ok ()

/-- Outcome of the `requests.post` call inside `call_ollama`: a body whose
`"response"` key is present, a `requests.exceptions.ConnectionError`, a
`requests.exceptions.Timeout`, or any other exception (non-success status,
missing key, JSON decoding error), carrying its `str(e)` text. -/
inductive SummOutcome where
  | success (response : List Char)
  | connectionError
  | timeout
  | otherError (msg : List Char)
deriving DecidableEq

/-- `call_ollama` (lines 77-105): every failure is raised as an
`HTTPException`; nothing is returned on failure. -/
def callOllama : SummOutcome → Except HTTPExc (List Char)
  | .success r => .ok r
  | .connectionError =>
      .error ⟨503, "Cannot connect to Ollama. Please ensure Ollama is running on your machine.".data⟩
  | .timeout => .error ⟨504, "Ollama request timed out. The text might be too long.".data⟩
  | .otherError msg => .error ⟨500, ("Error communicating with Ollama: ".data ++ msg)⟩

/-- The summarization modes of the `PROMPTS` table (lines 49-53). -/
def summaryModes : List (List Char) := ["brief".data, "detailed".data, "bullets".data]

/-- `SummaryResponse` of the response model. -/
structure SummaryResponse where
  summary : List Char
  mode : List Char
  language : List Char
  original_length : Nat
  summary_length : Nat
deriving DecidableEq

/-- The `/summarize/` endpoint (lines 138-177): validation, mode check,
language detection (passed in as the detector's verdict), one Ollama call.
The second component counts the Ollama calls issued. -/
def summarizeEndpoint (text : List Char) (mode : List Char) (detectedLang : List Char)
    (o : SummOutcome) : Except HTTPExc SummaryResponse × Nat :=
  match validateText text with
  | .error e => (.error e, 0)
  | .ok _ =>
    if summaryModes.contains mode = false then
      (.error ⟨400, "Invalid mode. Choose from: brief, detailed, bullets".data⟩, 0)
    else
      match callOllama o with
      | .error e => (.error e, 1)
      | .ok summary =>
          (.ok { summary := pyStrip summary, mode := mode, language := detectedLang,
                 original_length := text.length,
                 summary_length := (pyStrip summary).length }, 1)

/-! ## Health reporting -/

/-- Outcome of the liveness GET to `<base>/api/tags`: an HTTP response with
some status code, or any raised error. -/
inductive ProbeOutcome where
  | response (code : Nat)
  | failure
deriving DecidableEq

/-- The GET request a health probe issues (URL and timeout in seconds). -/
structure ProbeRequest where
  url : List Char
  timeout : Nat
deriving DecidableEq

/-- The probe issued by `check_ollama_status` of the product review
analyzer (line 129-130): `httpx.AsyncClient(timeout=5.0)` GET on
`/api/tags`. -/
def prProbeRequest : ProbeRequest :=
  { url := "http://localhost:11434/api/tags".data, timeout := 5 }

/-- The probe issued by `health_check` of the sentiment analyzer
(line 123): `requests.get(..., timeout=5)`. -/
def saProbeRequest : ProbeRequest :=
  { url := "http://localhost:11434/api/tags".data, timeout := 5 }

/-- `check_ollama_status` (lines 126-133): `response.status_code == 200`,
and `False` on any exception (the bare `except` arm); the function itself
is total and never raises. -/
def checkOllamaStatus : ProbeOutcome → Bool
  | .response code => code == 200
  | .failure => false

/-- `HealthResponse` of the sentiment analyzer. -/
structure SAHealthResponse where
  api_status : List Char
  ollama_status : List Char
  model : List Char
deriving DecidableEq

/-- `health_check` of the sentiment analyzer (lines 117-133): the status
starts as `"offline"`, is set to `"online"` only on a 200 probe response,
and any exception leaves it `"offline"`; the endpoint always returns. -/
def healthCheckSA (o : ProbeOutcome) : SAHealthResponse :=
  let ollama_status :=
    match o with
    | .response code => if code == 200 then "online".data else "offline".data
    | .failure => "offline".data
  { api_status := "online".data, ollama_status := ollama_status, model := "mistral".data }

/-! ## Batch-loop characterizations -/

theorem countP_add_countP_not {α : Type} (q : α → Bool) (l : List α) :
    l.countP q + l.countP (fun a => !q a) = l.length := by
  induction l with
  | nil => rfl
  | cons a t ih =>
    by_cases h : q a
    · simp [List.countP_cons, h]
      omega
    · simp [List.countP_cons, h]
      omega

theorem sentBatchLoop_spec (items : List (List Char × SentOutcome)) :
    ∀ res sc, sentBatchLoop items res sc =
      (res ++ items.map (fun p => analyzeText p.1 p.2),
       sc + items.countP (fun p => (analyzeText p.1 p.2).success)) := by
  induction items with
  | nil => intro res sc; simp [sentBatchLoop]
  | cons p rest ih =>
    intro res sc
    obtain ⟨t, o⟩ := p
    simp only [sentBatchLoop]
    rw [ih]
    refine Prod.ext ?_ ?_
    · simp
    · by_cases hs : (analyzeText t o).success
      all_goals simp [List.countP_cons, hs]
      all_goals omega

theorem prBatchLoop_spec (items : List (RevItem × ItemOutcomes)) :
    ∀ res sc ec, prBatchLoop items res sc ec =
      (res ++ items.map (fun p => (processItem p.1 p.2).1),
       sc + items.countP (fun p => (processItem p.1 p.2).2),
       ec + items.countP (fun p => !(processItem p.1 p.2).2)) := by
  induction items with
  | nil => intro res sc ec; simp [prBatchLoop]
  | cons p rest ih =>
    intro res sc ec
    obtain ⟨it, oc⟩ := p
    simp only [prBatchLoop]
    by_cases hr : (processItem it oc).2
    · rw [if_pos hr, ih]
      refine Prod.ext (by simp) (Prod.ext ?_ ?_)
      · simp [List.countP_cons, hr]
        omega
      · simp [List.countP_cons, hr]
    · rw [if_neg hr, ih]
      refine Prod.ext (by simp) (Prod.ext ?_ ?_)
      · simp [List.countP_cons, hr]
      · simp only [List.countP_cons]
        simp [Bool.eq_false_iff.mpr hr]
        omega

/-- The review text recorded for an item is the stripped input text,
whatever the three calls did. -/
theorem processItem_review (it : RevItem) (oc : ItemOutcomes) :
    (processItem it oc).1.review = pyStrip it.text := by
  cases hg : gather3 (queryOllama oc.sent) (queryOllama oc.top) (queryOllama oc.sum) with
  | ok v => obtain ⟨s, t, u⟩ := v; simp [processItem, hg]
  | error e => simp [processItem, hg]

/-- An iteration is counted as a success exactly when its `error` field is
`None`. -/
theorem processItem_success_iff (it : RevItem) (oc : ItemOutcomes) :
    (processItem it oc).2 = true ↔ (processItem it oc).1.error = none := by
  cases hg : gather3 (queryOllama oc.sent) (queryOllama oc.top) (queryOllama oc.sum) with
  | ok v => obtain ⟨s, t, u⟩ := v; simp [processItem, hg]
  | error e => simp [processItem, hg]

/-- The constructors of `OllamaOutcome` on which `query_ollama` raises an
`HTTPException` (timeout, connect error, other request error). -/
def OllamaOutcome.raisesExc : OllamaOutcome → Bool
  | .timeout => true
  | .connectError => true
  | .requestError => true
  | _ => false

theorem queryOllama_error_iff (o : OllamaOutcome) :
    (∃ e, queryOllama o = .error e) ↔ o.raisesExc = true := by
  cases o <;> simp [queryOllama, OllamaOutcome.raisesExc]

theorem gather3_error_iff (a b c : Except HTTPExc (List Char)) :
    (∃ e, gather3 a b c = .error e) ↔
      (∃ e, a = .error e) ∨ (∃ e, b = .error e) ∨ (∃ e, c = .error e) := by
  cases a <;> cases b <;> cases c <;> simp [gather3]

/-- When any of the three calls of an item raises, the item is recorded
with its `error` field set and counted as an error. -/
theorem processItem_fail (it : RevItem) (oc : ItemOutcomes)
    (h : oc.sent.raisesExc = true ∨ oc.top.raisesExc = true ∨ oc.sum.raisesExc = true) :
    (processItem it oc).2 = false ∧ (processItem it oc).1.error.isSome = true := by
  have hg : ∃ e, gather3 (queryOllama oc.sent) (queryOllama oc.top)
      (queryOllama oc.sum) = .error e := by
    rw [gather3_error_iff]
    rcases h with h | h | h
    · exact Or.inl ((queryOllama_error_iff _).mpr h)
    · exact Or.inr (Or.inl ((queryOllama_error_iff _).mpr h))
    · exact Or.inr (Or.inr ((queryOllama_error_iff _).mpr h))
  obtain ⟨e, he⟩ := hg
  constructor <;> simp [processItem, he]

/-- The constructors of `SentOutcome` on which the inference call of
`analyze_text` fails. -/
def SentOutcome.isFailure : SentOutcome → Bool
  | .success _ => false
  | _ => true

/-- A failing call makes `analyze_text` return `success=False`. -/
theorem analyzeText_failure (t : List Char) (o : SentOutcome)
    (h : o.isFailure = true) : (analyzeText t o).success = false := by
  cases o <;> simp_all [analyzeText, SentOutcome.isFailure]

/-- `analyze_text` echoes the input text back unchanged. -/
theorem analyzeText_text (t : List Char) (o : SentOutcome) :
    (analyzeText t o).text = t := by
  cases o <;> rfl

/-! ## Claims -/

/-- C1: For every raw model reply whose lower-cased text contains at least
one of the substrings "positive", "negative", "neutral", the response
normalizer of the sentiment analyzer returns the first matching
capitalized label of the ordered candidate set
`[Positive, Negative, Neutral]` — in particular, when exactly one
substring occurs the matching label is returned, and with several
occurrences Positive is checked first, then Negative, then Neutral. -/
theorem claim_C1 (raw : List Char)
    (h : containsSub "positive".data (lowerStr raw) = true ∨
         containsSub "negative".data (lowerStr raw) = true ∨
         containsSub "neutral".data (lowerStr raw) = true) :
    normalize raw =
      (if containsSub "positive".data (lowerStr raw) = true then "Positive".data
       else if containsSub "negative".data (lowerStr raw) = true then "Negative".data
       else "Neutral".data) := by
  have hp := containsSub_lower_pyStrip "positive".data raw (by decide) (by decide)
  have hn := containsSub_lower_pyStrip "negative".data raw (by decide) (by decide)
  have hu := containsSub_lower_pyStrip "neutral".data raw (by decide) (by decide)
  simp only [normalize]
  rw [hp, hn, hu]
  by_cases h1 : containsSub "positive".data (lowerStr raw) = true
  · simp [h1]
  · by_cases h2 : containsSub "negative".data (lowerStr raw) = true
    · simp [h1, h2]
    · by_cases h3 : containsSub "neutral".data (lowerStr raw) = true
      · simp [h1, h2, h3]
      · rcases h with h | h | h <;> contradiction

theorem claim_C1_witness :
    normalize "Mostly positive, with negative notes.".data = "Positive".data := by
  have h := claim_C1 "Mostly positive, with negative notes.".data (Or.inl (by decide))
  rw [h]
  decide

/-- C6: A raw reply containing none of the keywords (case-insensitive) is
passed through trimmed but otherwise unchanged, and an empty reply yields
an empty result.  `normalize` is a total Lean function, so it never
raises. -/
theorem claim_C6 (raw : List Char)
    (h1 : containsSub "positive".data (lowerStr raw) = false)
    (h2 : containsSub "negative".data (lowerStr raw) = false)
    (h3 : containsSub "neutral".data (lowerStr raw) = false) :
    normalize raw = pyStrip raw ∧ normalize [] = [] := by
  constructor
  · have hp := containsSub_lower_pyStrip "positive".data raw (by decide) (by decide)
    have hn := containsSub_lower_pyStrip "negative".data raw (by decide) (by decide)
    have hu := containsSub_lower_pyStrip "neutral".data raw (by decide) (by decide)
    simp only [normalize]
    rw [hp, hn, hu]
    simp [h1, h2, h3]
  · decide

theorem claim_C6_witness :
    normalize "  I cannot tell.  ".data = "I cannot tell.".data ∧ normalize [] = [] := by
  have h := claim_C6 "  I cannot tell.  ".data (by decide) (by decide) (by decide)
  rw [h.1]
  exact ⟨by decide, h.2⟩

/-- C2: Every batch response satisfies
`success_count + error_count = total = length results`: in the product
review analyzer the two counters are explicit fields, in the sentiment
analyzer the error count is the number of results with `success = false`
(its response model carries no `error_count` field); either way every
processed item is counted exactly once. -/
theorem claim_C2 (prItems : List (RevItem × ItemOutcomes))
    (saItems : List (List Char × SentOutcome)) :
    ((analyzeBatchPR prItems).success_count + (analyzeBatchPR prItems).error_count =
        (analyzeBatchPR prItems).total_count ∧
      (analyzeBatchPR prItems).total_count = (analyzeBatchPR prItems).results.length) ∧
    ((analyzeBatchSA saItems).success_count +
        (analyzeBatchSA saItems).results.countP (fun r => !r.success) =
        (analyzeBatchSA saItems).total ∧
      (analyzeBatchSA saItems).total = (analyzeBatchSA saItems).results.length) := by
  constructor
  · simp only [analyzeBatchPR, prBatchLoop_spec, List.nil_append, Nat.zero_add]
    constructor
    · exact countP_add_countP_not _ prItems
    · simp
  · simp only [analyzeBatchSA, sentBatchLoop_spec, List.nil_append, Nat.zero_add]
    constructor
    · rw [List.countP_map]
      have := countP_add_countP_not (fun p : List Char × SentOutcome =>
        (analyzeText p.1 p.2).success) saItems
      simpa [Function.comp] using this
    · simp

/-- C3 counterexample: in the product review analyzer, an item whose
inference call fails with a remote error (non-success HTTP status, here
500) is recorded with `error = None` and counted in `success_count`, not
with `success=false` and the error field set as the claim states: the
`HTTPStatusError` raised by `raise_for_status` is swallowed by
`query_ollama`'s generic `except Exception` arm, which returns the literal
string `"Error"`. -/
theorem claim_C3_cex :
    (let b := analyzeBatchPR [(⟨"good product".data, "P".data⟩,
        ⟨.httpStatusError 500, .success (some "Battery".data),
         .success (some "Fine.".data)⟩)]
     b.results.map (fun r => r.error) = [none] ∧
       b.success_count = 1 ∧ b.error_count = 0) := by decide

/-- C3 amended: if an item's inference call raises (timeout, connect
error, or other request error — but not a swallowed remote error, see the
counterexample), the product review batch records that item with its
`error` field set; in the sentiment analyzer every failing call yields
`success=false`.  In both services the batch never aborts: `results`
always has one entry per request. -/
theorem claim_C3_amended (prItems : List (RevItem × ItemOutcomes))
    (saItems : List (List Char × SentOutcome)) (i j : Nat)
    (hi : i < prItems.length) (hj : j < saItems.length)
    (hfi : prItems[i].2.sent.raisesExc = true ∨
           prItems[i].2.top.raisesExc = true ∨
           prItems[i].2.sum.raisesExc = true)
    (hfj : saItems[j].2.isFailure = true) :
    (analyzeBatchPR prItems).results.length = prItems.length ∧
    ((analyzeBatchPR prItems).results[i]?).map (fun r => r.error.isSome) = some true ∧
    (analyzeBatchSA saItems).results.length = saItems.length ∧
    ((analyzeBatchSA saItems).results[j]?).map (fun r => r.success) = some false := by
  have hres : (analyzeBatchPR prItems).results =
      prItems.map (fun p => (processItem p.1 p.2).1) := by
    simp [analyzeBatchPR, prBatchLoop_spec]
  have hresSA : (analyzeBatchSA saItems).results =
      saItems.map (fun p => analyzeText p.1 p.2) := by
    simp [analyzeBatchSA, sentBatchLoop_spec]
  refine ⟨by rw [hres]; simp, ?_, by rw [hresSA]; simp, ?_⟩
  · rw [hres, List.getElem?_map, List.getElem?_eq_getElem hi]
    have hp := processItem_fail prItems[i].1 prItems[i].2 hfi
    simp [hp.2]
  · rw [hresSA, List.getElem?_map, List.getElem?_eq_getElem hj]
    have hs := analyzeText_failure saItems[j].1 saItems[j].2 hfj
    simp [hs]

theorem claim_C3_amended_witness :
    (([((⟨"bad wifi".data, "Router".data⟩ : RevItem),
        (⟨OllamaOutcome.timeout, OllamaOutcome.success (some "Wifi".data),
          OllamaOutcome.success (some "Poor.".data)⟩ : ItemOutcomes))].get
        (⟨0, by decide⟩ : Fin 1)).2.sent.raisesExc = true ∧
     ([("good".data, SentOutcome.timeout)].get (⟨0, by decide⟩ : Fin 1)).2.isFailure = true) ∧
    ((analyzeBatchPR [(⟨"bad wifi".data, "Router".data⟩,
        ⟨OllamaOutcome.timeout, OllamaOutcome.success (some "Wifi".data),
         OllamaOutcome.success (some "Poor.".data)⟩)]).results[0]?).map
      (fun r => r.error.isSome) = some true ∧
    ((analyzeBatchSA [("good".data, SentOutcome.timeout)]).results[0]?).map
      (fun r => r.success) = some false := by
  refine ⟨⟨by decide, by decide⟩, ?_, ?_⟩
  · exact (claim_C3_amended
      [(⟨"bad wifi".data, "Router".data⟩,
        ⟨OllamaOutcome.timeout, OllamaOutcome.success (some "Wifi".data),
         OllamaOutcome.success (some "Poor.".data)⟩)]
      [("good".data, SentOutcome.timeout)] 0 0 (by decide) (by decide)
      (Or.inl (by decide)) (by decide)).2.1
  · exact (claim_C3_amended
      [(⟨"bad wifi".data, "Router".data⟩,
        ⟨OllamaOutcome.timeout, OllamaOutcome.success (some "Wifi".data),
         OllamaOutcome.success (some "Poor.".data)⟩)]
      [("good".data, SentOutcome.timeout)] 0 0 (by decide) (by decide)
      (Or.inl (by decide)) (by decide)).2.2.2

/-- C4 counterexample: two of the three inference clients raise on
failure instead of returning an `{ok: false, ...}` value: `query_ollama`
of the product review analyzer raises a 504 `HTTPException` on timeout
(checking timeout before connect errors, not after), and `call_ollama` of
the summarizer raises a 503 on connection failure. -/
theorem claim_C4_cex :
    queryOllama .timeout =
      .error ⟨504, "Request timed out. The model is taking too long to respond.".data⟩ ∧
    callOllama .connectionError =
      .error ⟨503, "Cannot connect to Ollama. Please ensure Ollama is running on your machine.".data⟩ :=
  ⟨rfl, rfl⟩

/-- C4 amended: only the sentiment analyzer's client returns failures as
values (`success=False` with a human-readable message, checking
connection failure first, then timeout, then a catch-all for remote
errors).  The product review client raises `HTTPException`s (504 timeout,
503 connect/request error) and returns the literal `"Error"` without
raising for non-success statuses and malformed bodies; the summarizer
client raises for every failure kind (503 connection, 504 timeout, 500
otherwise). -/
theorem claim_C4_amended :
    (∀ t, analyzeText t .connectionError =
        { text := t, sentiment := "Error: Cannot connect to Ollama".data, success := false }) ∧
    (∀ t, analyzeText t .timeout =
        { text := t, sentiment := "Error: Request timed out".data, success := false }) ∧
    (∀ t m, analyzeText t (.otherError m) =
        { text := t, sentiment := "Error: ".data ++ m, success := false }) ∧
    queryOllama .timeout =
      .error ⟨504, "Request timed out. The model is taking too long to respond.".data⟩ ∧
    queryOllama .connectError =
      .error ⟨503, "Could not connect to Ollama. Make sure it's running on localhost:11434".data⟩ ∧
    queryOllama .requestError =
      .error ⟨503, "Service Unavailable: Could not connect to Ollama.".data⟩ ∧
    (∀ c, queryOllama (.httpStatusError c) = .ok "Error".data) ∧
    queryOllama .malformedBody = .ok "Error".data ∧
    callOllama .connectionError =
      .error ⟨503, "Cannot connect to Ollama. Please ensure Ollama is running on your machine.".data⟩ ∧
    callOllama .timeout =
      .error ⟨504, "Ollama request timed out. The text might be too long.".data⟩ ∧
    (∀ m, callOllama (.otherError m) =
      .error ⟨500, "Error communicating with Ollama: ".data ++ m⟩) :=
  ⟨fun _ => rfl, fun _ => rfl, fun _ _ => rfl, rfl, rfl, rfl, fun _ => rfl, rfl, rfl,
   rfl, fun _ => rfl⟩

/-- C5 counterexample: the product review batch records each item's
`review` field as the input text stripped of surrounding whitespace, so
for the input `" ok "` the recorded source text `"ok"` differs from the
request's `input_text`. -/
theorem claim_C5_cex :
    (analyzeBatchPR [(⟨" ok ".data, "P".data⟩,
        ⟨.success (some "Positive".data), .success (some "Battery".data),
         .success (some "Fine.".data)⟩)]).results.map (fun r => r.review) = ["ok".data] ∧
    "ok".data ≠ " ok ".data := by decide

/-- C5 amended: both batch orchestrators preserve order with no dropping
(`results` is the pointwise image of `requests`); the recorded source
text equals the request text in the sentiment analyzer, and equals the
request text stripped of leading/trailing whitespace in the product
review analyzer. -/
theorem claim_C5_amended (prItems : List (RevItem × ItemOutcomes))
    (saItems : List (List Char × SentOutcome)) :
    ((analyzeBatchPR prItems).results.length = prItems.length ∧
      (analyzeBatchPR prItems).results.map (fun r => r.review) =
        prItems.map (fun p => pyStrip p.1.text)) ∧
    ((analyzeBatchSA saItems).results.length = saItems.length ∧
      (analyzeBatchSA saItems).results.map (fun r => r.text) =
        saItems.map (fun p => p.1)) := by
  constructor
  · constructor
    · simp [analyzeBatchPR, prBatchLoop_spec]
    · simp only [analyzeBatchPR, prBatchLoop_spec, List.nil_append, List.map_map]
      congr 1
      funext p
      simp only [Function.comp_apply]
      exact processItem_review p.1 p.2
  · constructor
    · simp [analyzeBatchSA, sentBatchLoop_spec]
    · simp only [analyzeBatchSA, sentBatchLoop_spec, List.nil_append, List.map_map]
      congr 1
      funext p
      simp only [Function.comp_apply]
      exact analyzeText_text p.1 p.2

/-- C7: a request violating the length bounds — batch length outside
`1..100` for the product review analyzer, or text shorter than
`MIN_TEXT_LENGTH` once stripped / longer than `MAX_TEXT_LENGTH` for the
summarizer — is rejected as a validation failure (422 from pydantic, 400
from `validate_text`) and zero calls to the inference server are
issued. -/
theorem claim_C7 (prItems : List (RevItem × ItemOutcomes))
    (text mode lang : List Char) (o : SummOutcome)
    (hpr : prItems.length < 1 ∨ 100 < prItems.length ∨
           ∃ p ∈ prItems, p.1.text.length < 3 ∨ 5000 < p.1.text.length)
    (hsum : (pyStrip text).length < MIN_TEXT_LENGTH ∨ MAX_TEXT_LENGTH < text.length) :
    analyzeBatchEndpointPR prItems = (.error ⟨422⟩, 0) ∧
    (summarizeEndpoint text mode lang o).2 = 0 ∧
    (∃ e, (summarizeEndpoint text mode lang o).1 = .error e ∧ e.status_code = 400) := by
  have hv : validBatchRequest (prItems.map Prod.fst) = false := by
    rw [Bool.eq_false_iff]
    intro htrue
    simp only [validBatchRequest, Bool.and_eq_true, decide_eq_true_eq,
      List.all_eq_true, List.length_map] at htrue
    rcases hpr with h | h | ⟨p, hmem, hbad⟩
    · omega
    · omega
    · have hitem := htrue.2 p.1 (List.mem_map_of_mem Prod.fst hmem)
      simp only [validReviewItem, Bool.and_eq_true, decide_eq_true_eq] at hitem
      omega
  have hval : ∃ e, validateText text = .error e ∧ e.status_code = 400 := by
    unfold validateText
    by_cases h1 : (pyStrip text).length < MIN_TEXT_LENGTH
    · rw [if_pos h1]
      exact ⟨_, rfl, rfl⟩
    · rcases hsum with h | h
      · exact absurd h h1
      · rw [if_neg h1, if_pos (by omega)]
        exact ⟨_, rfl, rfl⟩
  obtain ⟨e, he, he400⟩ := hval
  refine ⟨by simp [analyzeBatchEndpointPR, hv], ?_, ?_⟩
  · simp [summarizeEndpoint, he]
  · exact ⟨e, by simp [summarizeEndpoint, he], he400⟩

theorem claim_C7_witness :
    (([] : List (RevItem × ItemOutcomes)).length < 1 ∨
       100 < ([] : List (RevItem × ItemOutcomes)).length ∨
       ∃ p ∈ ([] : List (RevItem × ItemOutcomes)),
         p.1.text.length < 3 ∨ 5000 < p.1.text.length) ∧
    ((pyStrip "short".data).length < MIN_TEXT_LENGTH ∨
       MAX_TEXT_LENGTH < "short".data.length) ∧
    analyzeBatchEndpointPR ([] : List (RevItem × ItemOutcomes)) = (.error ⟨422⟩, 0) ∧
    (summarizeEndpoint "short".data "brief".data "en".data
      (.success "a summary".data)).2 = 0 := by
  refine ⟨Or.inl (by decide), Or.inl (by decide), ?_, ?_⟩
  · exact (claim_C7 [] "short".data "brief".data "en".data (.success "a summary".data)
      (Or.inl (by decide)) (Or.inl (by decide))).1
  · exact (claim_C7 [] "short".data "brief".data "en".data (.success "a summary".data)
      (Or.inl (by decide)) (Or.inl (by decide))).2.1

/-- C8: both liveness probes issue a GET on the `/api/tags` status
endpoint with a timeout of 5 seconds (≤ 5s), and every probe error yields
`false` / `"offline"` instead of propagating: `check_ollama_status` and
`health_check` translate any raised exception into the offline verdict
and are total (they never raise). -/
theorem claim_C8 :
    prProbeRequest.timeout ≤ 5 ∧ saProbeRequest.timeout ≤ 5 ∧
    prProbeRequest.url = "http://localhost:11434/api/tags".data ∧
    saProbeRequest.url = "http://localhost:11434/api/tags".data ∧
    checkOllamaStatus .failure = false ∧
    (∀ c, checkOllamaStatus (.response c) = (c == 200)) ∧
    (healthCheckSA .failure).ollama_status = "offline".data ∧
    (healthCheckSA .failure).api_status = "online".data :=
  ⟨by decide, by decide, by decide, by decide, rfl, fun _ => rfl, by decide, by decide⟩

/-- C10: in the product review analyzer there is a failure mode — any
exception that is neither an `httpx` timeout nor a connect/request error,
e.g. a malformed JSON body or the `HTTPStatusError` of `raise_for_status`
— in which `query_ollama` returns the literal string `"Error"` instead of
raising; the batch orchestrator then records the item with `error = None`,
all three fields equal to `"Error"`, and counts it in `success_count`
rather than `error_count`. -/
theorem claim_C10 :
    queryOllama .malformedBody = .ok "Error".data ∧
    queryOllama (.httpStatusError 500) = .ok "Error".data ∧
    analyzeBatchPR [((⟨"great phone".data, "Phone".data⟩ : RevItem),
        ⟨.malformedBody, .malformedBody, .malformedBody⟩)] =
      { results := [{ review := "great phone".data, product_name := "Phone".data,
                      sentiment := "Error".data, topic := "Error".data,
                      summary := "Error".data, error := none }],
        total_count := 1, success_count := 1, error_count := 0 } :=
  ⟨rfl, rfl, by decide⟩

end NLP
